import Mathlib

/-!
Verification development for the Safety-index dashboard.

The repository has two relevant source files:
- `src/pages/RealtimeCommand.tsx`: the realtime view that resolves a session
  (file id), subscribes to telemetry and event change feeds, merges streamed
  rows into sorted in-memory lists, and dispatches a stop command.
- `SafetyTrendChart.tsx`: a pure score-visualization component.

JavaScript numbers are modelled as exact rationals (`ℚ`), with `NaN` and
nullish values represented explicitly where the code branches on them.
Timestamps are modelled as integers (`new Date(t).getTime()` values).
`Array.prototype.sort` with a comparator is a stable sort; it is modelled by
`List.insertionSort`, which is stable, so the two agree extensionally.
-/

/-! ### Score visualization (`SafetyTrendChart.tsx`) -/

/-- A JavaScript numeric value as produced by `Number(...)`: either `NaN` or an
ordinary number (modelled as an exact rational). -/
inductive JsNum where
  | nan : JsNum
  | num (q : ℚ) : JsNum
deriving DecidableEq

/-- `clamp(v, a, b)` from `SafetyTrendChart.tsx`:
`const n = Number(v ?? 0); if (Number.isNaN(n)) return a; return Math.max(a, Math.min(b, n));`.
The argument `v : Option JsNum` models a JS value that may be nullish (`none`),
`NaN`, or a number; `Number` of a non-numeric value yields `NaN`. -/
def clamp (v : Option JsNum) (a b : ℚ) : ℚ :=
  match v.getD (JsNum.num 0) with
  | JsNum.nan => a
  | JsNum.num n => max a (min b n)

/-- `getScoreColor(score)` from `SafetyTrendChart.tsx`: four-tier color by
thresholds 8, 6, 4 (each inclusive on the lower end). -/
def getScoreColor (score : ℚ) : String :=
  if score ≥ 8 then "#22c55e"
  else if score ≥ 6 then "#eab308"
  else if score ≥ 4 then "#f97316"
  else "#ef4444"

/-- The tier-label expression rendered in `SafetyTrendChart`:
`overallClamped >= 8 ? "Excellent" : overallClamped >= 6 ? "Good" :
 overallClamped >= 4 ? "Needs Improvement" : "Poor"`. -/
def tierLabel (overallClamped : ℚ) : String :=
  if overallClamped ≥ 8 then "Excellent"
  else if overallClamped ≥ 6 then "Good"
  else if overallClamped ≥ 4 then "Needs Improvement"
  else "Poor"

/-- `const overallClamped = clamp(overall, 0, 10)` in `SafetyTrendChart`. -/
def overallClamped (overall : Option JsNum) : ℚ :=
  clamp overall 0 10

/-- `const percentage = (overallClamped / 10) * 100` in `SafetyTrendChart`. -/
def percentage (overall : Option JsNum) : ℚ :=
  overallClamped overall / 10 * 100

/-- `const scoreColor = getScoreColor(overallClamped)` in `SafetyTrendChart`. -/
def scoreColor (overall : Option JsNum) : String :=
  getScoreColor (overallClamped overall)

/-- The `metricList` array of `SafetyTrendChart`: the five sub-metrics, each
clamped to `[0, 10]`. -/
def metricList (acceleration gyroscope events potholes speedConsistency : Option JsNum) :
    List (String × ℚ) :=
  [ ("Acceleration", clamp acceleration 0 10),
    ("Gyroscope", clamp gyroscope 0 10),
    ("Events", clamp events 0 10),
    ("Potholes", clamp potholes 0 10),
    ("Speed", clamp speedConsistency 0 10) ]

/-! ### Event rows and merge callbacks (`RealtimeCommand.tsx`) -/

/-- A row of the `pothole_events` table, with the fields the view reads.
`detected_at` is the timestamp as an instant (`new Date(...).getTime()`). -/
structure Pothole where
  id : String
  rider_id : String
  file_id : String
  detected_at : ℤ
deriving DecidableEq

/-- A row of the `ride_events` table, with the fields the view reads.
`start_time` is the timestamp as an instant (`new Date(...).getTime()`). -/
structure RideEvent where
  id : String
  event_type : String
  rider_id : String
  file_id : String
  start_time : ℤ
  end_time : ℤ
deriving DecidableEq

/-- The pothole merge comparator `(a, b) => new Date(b.detected_at).getTime() -
new Date(a.detected_at).getTime()`: `a` precedes `b` when `a` is at least as
recent, i.e. descending (newest first). -/
def potholeNewestFirst (a b : Pothole) : Prop :=
  b.detected_at ≤ a.detected_at

instance : DecidableRel potholeNewestFirst :=
  fun a b => inferInstanceAs (Decidable (b.detected_at ≤ a.detected_at))

instance : IsTotal Pothole potholeNewestFirst :=
  ⟨fun a b => le_total b.detected_at a.detected_at⟩

instance : IsTrans Pothole potholeNewestFirst :=
  ⟨fun _ _ _ h1 h2 => le_trans h2 h1⟩

/-- Ascending order on potholes by `detected_at` (the snapshot order used when
`sortOrder === "oldest"`). -/
def potholeOldestFirst (a b : Pothole) : Prop :=
  a.detected_at ≤ b.detected_at

instance : DecidableRel potholeOldestFirst :=
  fun a b => inferInstanceAs (Decidable (a.detected_at ≤ b.detected_at))

instance : IsTotal Pothole potholeOldestFirst :=
  ⟨fun a b => le_total a.detected_at b.detected_at⟩

instance : IsTrans Pothole potholeOldestFirst :=
  ⟨fun _ _ _ h1 h2 => le_trans h1 h2⟩

/-- The ride-event merge comparator `(a, b) => new Date(b.start_time).getTime()
- new Date(a.start_time).getTime()`: descending (newest first). -/
def rideNewestFirst (a b : RideEvent) : Prop :=
  b.start_time ≤ a.start_time

instance : DecidableRel rideNewestFirst :=
  fun a b => inferInstanceAs (Decidable (b.start_time ≤ a.start_time))

instance : IsTotal RideEvent rideNewestFirst :=
  ⟨fun a b => le_total b.start_time a.start_time⟩

instance : IsTrans RideEvent rideNewestFirst :=
  ⟨fun _ _ _ h1 h2 => le_trans h2 h1⟩

/-- Ascending order on ride events by `start_time` (the snapshot order used
when `eventSortOrder === "oldest"`). -/
def rideOldestFirst (a b : RideEvent) : Prop :=
  a.start_time ≤ b.start_time

instance : DecidableRel rideOldestFirst :=
  fun a b => inferInstanceAs (Decidable (a.start_time ≤ b.start_time))

instance : IsTotal RideEvent rideOldestFirst :=
  ⟨fun a b => le_total a.start_time b.start_time⟩

instance : IsTrans RideEvent rideOldestFirst :=
  ⟨fun _ _ _ h1 h2 => le_trans h1 h2⟩

/-- The body of `setPotholes((prev) => ...)` in the pothole realtime callback:
`const merged = [e, ...prev]; merged.sort(descending by detected_at); return merged;`.
The comparator ignores the current sort order; the sort is stable. -/
def mergePothole (e : Pothole) (prev : List Pothole) : List Pothole :=
  List.insertionSort potholeNewestFirst (e :: prev)

/-- The full pothole INSERT callback: `if (e.file_id !== fileId) return;` then
the `setPotholes` merge. -/
def potholeInsertCallback (fileId : String) (e : Pothole) (prev : List Pothole) :
    List Pothole :=
  if e.file_id ≠ fileId then prev else mergePothole e prev

/-- The full ride-event INSERT callback: `setEvents((prev) => ...)` with
`const merged = [ev, ...prev]; merged.sort(descending by start_time); return merged;`.
Unlike the pothole callback, it performs no `file_id` check. -/
def rideEventInsertCallback (ev : RideEvent) (prev : List RideEvent) :
    List RideEvent :=
  List.insertionSort rideNewestFirst (ev :: prev)

/-! ### Snapshot fetches and the fetch effects -/

/-- The two sort directions of the view (`"newest" | "oldest"`). -/
inductive SortOrder where
  | newest : SortOrder
  | oldest : SortOrder
deriving DecidableEq

/-- The initial pothole snapshot query: rows of `pothole_events` with matching
`rider_id` and `file_id`, ordered by `detected_at` with
`ascending: sortOrder === "oldest"`. `db` models the server table contents. -/
def fetchPotholes (db : List Pothole) (riderId fileId : String) (o : SortOrder) :
    List Pothole :=
  let rows := db.filter (fun r => r.rider_id == riderId && r.file_id == fileId)
  match o with
  | SortOrder.oldest => List.insertionSort potholeOldestFirst rows
  | SortOrder.newest => List.insertionSort potholeNewestFirst rows

/-- The initial ride-event snapshot query: rows of `ride_events` with matching
`rider_id` and `file_id`, ordered by `start_time` with
`ascending: eventSortOrder === "oldest"`. -/
def fetchRideEvents (db : List RideEvent) (riderId fileId : String) (o : SortOrder) :
    List RideEvent :=
  let rows := db.filter (fun r => r.rider_id == riderId && r.file_id == fileId)
  match o with
  | SortOrder.oldest => List.insertionSort rideOldestFirst rows
  | SortOrder.newest => List.insertionSort rideNewestFirst rows

/-- Observable state of the pothole list in the view, together with a counter
of snapshot queries issued over the network. -/
structure PotholeViewState where
  potholes : List Pothole
  fetchesIssued : ℕ
deriving DecidableEq

/-- One run of the pothole fetch effect's `load()`, with issue and resolution
taken together: a network query is issued and `setPotholes(data)` applies its
result. -/
def loadPotholes (db : List Pothole) (riderId fileId : String) (o : SortOrder)
    (v : PotholeViewState) : PotholeViewState :=
  { potholes := fetchPotholes db riderId fileId o,
    fetchesIssued := v.fetchesIssued + 1 }

/-- What happens when the user changes the pothole sort direction: `sortOrder`
is in the fetch effect's dependency array
(`[riderId, fileId, sortOrder, isLoadingFileId]`), so the effect re-runs and
issues a fresh network query with the new direction applied server-side. -/
def setSortOrderStep (db : List Pothole) (riderId fileId : String)
    (newOrder : SortOrder) (v : PotholeViewState) : PotholeViewState :=
  loadPotholes db riderId fileId newOrder v

/-- The resolution of one in-flight pothole snapshot fetch that captured sort
direction `o` when issued: the `load()` closure runs `setPotholes(data)`
unconditionally when its response arrives — there is no staleness check. -/
def resolveFetch (db : List Pothole) (riderId fileId : String) (o : SortOrder)
    (v : PotholeViewState) : PotholeViewState :=
  { v with potholes := fetchPotholes db riderId fileId o }

/-! ### Effect gating (session resolution order) -/

/-- Gate of the telemetry (`riderdata`) subscription effect: the effect body
runs unless `!riderId`. It does not consult `fileId` or `isLoadingFileId`. -/
def telemetrySubActive (riderId : Option String) (fileId : Option String)
    (isLoadingFileId : Bool) : Bool :=
  riderId.isSome

/-- Gate of the pothole snapshot fetch effect:
`if (!riderId || !fileId || isLoadingFileId) return;`. -/
def potholeFetchActive (riderId : Option String) (fileId : Option String)
    (isLoadingFileId : Bool) : Bool :=
  riderId.isSome && fileId.isSome && !isLoadingFileId

/-- Gate of the pothole realtime subscription effect (same guard). -/
def potholeSubActive (riderId : Option String) (fileId : Option String)
    (isLoadingFileId : Bool) : Bool :=
  riderId.isSome && fileId.isSome && !isLoadingFileId

/-- Gate of the ride-event snapshot fetch effect (same guard). -/
def rideEventFetchActive (riderId : Option String) (fileId : Option String)
    (isLoadingFileId : Bool) : Bool :=
  riderId.isSome && fileId.isSome && !isLoadingFileId

/-- Gate of the ride-event realtime subscription effect (same guard). -/
def rideEventSubActive (riderId : Option String) (fileId : Option String)
    (isLoadingFileId : Bool) : Bool :=
  riderId.isSome && fileId.isSome && !isLoadingFileId

/-! ### Stop command (`handleStopRider`) -/

/-- Observable state of the stop-command flow: the ACTIVE/STOPPED badge flag
`isActive`, the `isStopping` flag that disables the STOP RIDER button, the
number of `rider_commands` rows written, and the number of error reports shown
to the operator. -/
structure StopState where
  isActive : Bool
  isStopping : Bool
  commandWrites : ℕ
  errorReports : ℕ
deriving DecidableEq

/-- `handleStopRider`: sets `isStopping` to `true`, inserts one
`rider_commands` row, then shows a success toast and schedules navigation.
The insert's result is ignored (no error branch), `setIsActive` is never
called, and no error is ever reported — regardless of `writeSucceeds`. -/
def handleStopRider (writeSucceeds : Bool) (s : StopState) : StopState :=
  { s with isStopping := true, commandWrites := s.commandWrites + 1 }

/-- A click on the STOP RIDER button: the button has `disabled={isStopping}`,
so the handler only runs when `isStopping` is `false`. -/
def clickStop (writeSucceeds : Bool) (s : StopState) : StopState :=
  if s.isStopping then s else handleStopRider writeSucceeds s

/-! ### Telemetry GPS mapping (`riderdata` INSERT callback) -/

/-- A JavaScript value as delivered in a `riderdata` payload field, as far as
the callback distinguishes: nullish, the empty string, a nonempty numeric
string (truthy), or a number (truthy iff nonzero). -/
inductive Jv where
  | nullv : Jv
  | emptyStr : Jv
  | numStr (q : ℚ) : Jv
  | numv (q : ℚ) : Jv
deriving DecidableEq

/-- JavaScript truthiness of a `Jv`: `null`/`undefined` and `""` are falsy, a
nonempty string is truthy, a number is truthy iff nonzero. -/
def Jv.truthy : Jv → Bool
  | Jv.nullv => false
  | Jv.emptyStr => false
  | Jv.numStr _ => true
  | Jv.numv q => decide (q ≠ 0)

/-- `parseFloat` on a truthy field value (a numeric string or a number). -/
def parseFloatJv : Jv → ℚ
  | Jv.numStr q => q
  | Jv.numv q => q
  | _ => 0

/-- `Number(...)` on a truthy field value (a numeric string or a number). -/
def numberJv : Jv → ℚ
  | Jv.numStr q => q
  | Jv.numv q => q
  | _ => 0

/-- The GPS part of the view state set by the `riderdata` INSERT callback. -/
structure GpsData where
  latitude : Option ℚ
  longitude : Option ℚ
  speed : ℚ
deriving DecidableEq

/-- The `setGpsData` call of the `riderdata` INSERT callback:
`latitude: d.gps_lat ? parseFloat(d.gps_lat) : null`,
`longitude: d.gps_lon ? parseFloat(d.gps_lon) : null`,
`speed: d.gps_speed_kn ? Number(d.gps_speed_kn) * 1.852 : 0`. -/
def setGpsDataOf (gps_lat gps_lon gps_speed_kn : Jv) : GpsData :=
  { latitude := if gps_lat.truthy then some (parseFloatJv gps_lat) else none,
    longitude := if gps_lon.truthy then some (parseFloatJv gps_lon) else none,
    speed := if gps_speed_kn.truthy then numberJv gps_speed_kn * (1852 / 1000) else 0 }

/-! ## Claims -/

/-- Claim C1, as stated, is false at a concrete input: delivering the same
pothole event twice leaves the collection with two elements of id `"a"` —
inserting an item whose id already exists does not leave the collection
unchanged, because the merge callback prepends unconditionally with no
duplicate-id check. -/
theorem c1_counterexample :
    potholeInsertCallback "F" ⟨"a", "R", "F", 5⟩ [⟨"a", "R", "F", 5⟩]
        ≠ [⟨"a", "R", "F", 5⟩] ∧
    (potholeInsertCallback "F" ⟨"a", "R", "F", 5⟩ [⟨"a", "R", "F", 5⟩]).countP
        (fun x => x.id == "a") = 2 := by
  decide

/-- Claim C1 (amended): the merge callbacks are not idempotent and enforce no
id uniqueness. Each accepted insertion unconditionally prepends the new event
and re-sorts, so the result is a permutation of the new event consed onto the
previous collection — even when an event with the same id is already present,
in which case a duplicate id appears. -/
theorem c1_amended :
    (∀ (fileId : String) (e : Pothole) (prev : List Pothole),
      e.file_id = fileId →
        List.Perm (potholeInsertCallback fileId e prev) (e :: prev)) ∧
    (∀ (ev : RideEvent) (prev : List RideEvent),
      List.Perm (rideEventInsertCallback ev prev) (ev :: prev)) := by
  constructor
  · intro fileId e prev h
    unfold potholeInsertCallback
    rw [if_neg (by simp [h])]
    exact List.perm_insertionSort _ _
  · intro ev prev
    exact List.perm_insertionSort _ _

/-- Witness for the amended C1 at a concrete input. -/
theorem c1_witness :
    List.Perm (potholeInsertCallback "F" ⟨"a", "R", "F", 5⟩ [⟨"b", "R", "F", 4⟩])
      (⟨"a", "R", "F", 5⟩ :: [⟨"b", "R", "F", 4⟩]) :=
  c1_amended.1 "F" ⟨"a", "R", "F", 5⟩ [⟨"b", "R", "F", 4⟩] rfl

/-- Claim C2, as stated, is false at a concrete input: with the current sort
order `"oldest"`, the snapshot is sorted ascending, but after one streamed
insertion the collection is no longer sorted ascending — the merge comparator
always sorts descending by `detected_at`, ignoring the current sort order. -/
theorem c2_counterexample :
    List.Sorted potholeOldestFirst
        (fetchPotholes [⟨"a", "R", "F", 1⟩, ⟨"b", "R", "F", 2⟩] "R" "F"
          SortOrder.oldest) ∧
    ¬ List.Sorted potholeOldestFirst
        (potholeInsertCallback "F" ⟨"c", "R", "F", 3⟩
          (fetchPotholes [⟨"a", "R", "F", 1⟩, ⟨"b", "R", "F", 2⟩] "R" "F"
            SortOrder.oldest)) := by
  decide

/-- Claim C2 (amended): after the initial snapshot load the collection is
sorted by its timestamp field in the direction chosen by the current sort
order, but after each streamed insertion it is sorted descending (newest
first) regardless of the current sort order. -/
theorem c2_amended :
    (∀ (db : List Pothole) (r f : String),
      List.Sorted potholeOldestFirst (fetchPotholes db r f SortOrder.oldest) ∧
      List.Sorted potholeNewestFirst (fetchPotholes db r f SortOrder.newest)) ∧
    (∀ (db : List RideEvent) (r f : String),
      List.Sorted rideOldestFirst (fetchRideEvents db r f SortOrder.oldest) ∧
      List.Sorted rideNewestFirst (fetchRideEvents db r f SortOrder.newest)) ∧
    (∀ (e : Pothole) (prev : List Pothole),
      List.Sorted potholeNewestFirst (mergePothole e prev)) ∧
    (∀ (ev : RideEvent) (prev : List RideEvent),
      List.Sorted rideNewestFirst (rideEventInsertCallback ev prev)) := by
  refine ⟨fun db r f => ⟨?_, ?_⟩, fun db r f => ⟨?_, ?_⟩,
    fun e prev => ?_, fun ev prev => ?_⟩ <;>
    exact List.sorted_insertionSort _ _

/-- Claim C3, as stated, is false at a concrete input: a ride event whose
`file_id` (`"G"`) differs from the resolved session id (`"F"`) is admitted
into the merge store — the ride-event INSERT callback performs no client-side
`file_id` check. -/
theorem c3_counterexample :
    (⟨"x", "brake", "R", "G", 1, 2⟩ : RideEvent).file_id ≠ "F" ∧
    (⟨"x", "brake", "R", "G", 1, 2⟩ : RideEvent) ∈
      rideEventInsertCallback ⟨"x", "brake", "R", "G", 1, 2⟩ [] := by
  decide

/-- Claim C3 (amended): only the pothole INSERT callback verifies that the
notified row's `file_id` equals the resolved session id, discarding
mismatches; the ride-event INSERT callback admits every delivered event into
the merge store without any client-side session check. -/
theorem c3_amended :
    (∀ (fileId : String) (e : Pothole) (prev : List Pothole),
      e.file_id ≠ fileId → potholeInsertCallback fileId e prev = prev) ∧
    (∀ (ev : RideEvent) (prev : List RideEvent),
      ev ∈ rideEventInsertCallback ev prev) := by
  constructor
  · intro fileId e prev h
    unfold potholeInsertCallback
    rw [if_pos h]
  · intro ev prev
    exact ((List.perm_insertionSort _ _).mem_iff).mpr (List.mem_cons_self ev prev)

/-- Witness for the amended C3 at a concrete input. -/
theorem c3_witness :
    potholeInsertCallback "F" ⟨"z", "R", "G", 7⟩ [] = [] :=
  c3_amended.1 "F" ⟨"z", "R", "G", 7⟩ [] (by decide)

/-- Claim C4, as stated, is false at a concrete input: after a successful stop
command the active flag is still `true` (the handler never sets it to
`false`), and after a failed write no error is reported (the insert's result
is ignored). -/
theorem c4_counterexample :
    (clickStop true ⟨true, false, 0, 0⟩).isActive = true ∧
    (clickStop false ⟨true, false, 0, 0⟩).errorReports = 0 := by
  decide

/-- Claim C4 (amended): clicking STOP RIDER while no stop is in flight issues
exactly one command write and sets `isStopping`, after which a second stop
attempt is a no-op without a second write; but the active flag is left
unchanged regardless of the write's outcome, and write failures are never
reported. -/
theorem c4_amended :
    ∀ (b b2 : Bool) (s : StopState), s.isStopping = false →
      (clickStop b s).isActive = s.isActive ∧
      (clickStop b s).isStopping = true ∧
      (clickStop b s).commandWrites = s.commandWrites + 1 ∧
      (clickStop b s).errorReports = s.errorReports ∧
      clickStop b2 (clickStop b s) = clickStop b s := by
  intro b b2 s h
  simp [clickStop, handleStopRider, h]

/-- Witness for the amended C4 at a concrete input. -/
theorem c4_witness :
    (clickStop true ⟨true, false, 2, 0⟩).isActive =
      (⟨true, false, 2, 0⟩ : StopState).isActive ∧
    (clickStop true ⟨true, false, 2, 0⟩).isStopping = true ∧
    (clickStop true ⟨true, false, 2, 0⟩).commandWrites =
      (⟨true, false, 2, 0⟩ : StopState).commandWrites + 1 ∧
    (clickStop true ⟨true, false, 2, 0⟩).errorReports =
      (⟨true, false, 2, 0⟩ : StopState).errorReports ∧
    clickStop false (clickStop true ⟨true, false, 2, 0⟩) =
      clickStop true ⟨true, false, 2, 0⟩ :=
  c4_amended true false ⟨true, false, 2, 0⟩ rfl

/-- Claim C5 (confirmed): the clamped overall value maps to exactly one of
four tiers with boundaries inclusive on the lower end — ≥ 8 "Excellent",
≥ 6 and < 8 "Good", ≥ 4 and < 6 "Needs Improvement", < 4 "Poor" — and the
tier color is chosen by the same thresholds. -/
theorem c5_tiers :
    ∀ (overall : Option JsNum),
      (8 ≤ overallClamped overall →
        tierLabel (overallClamped overall) = "Excellent" ∧
        scoreColor overall = "#22c55e") ∧
      (6 ≤ overallClamped overall → overallClamped overall < 8 →
        tierLabel (overallClamped overall) = "Good" ∧
        scoreColor overall = "#eab308") ∧
      (4 ≤ overallClamped overall → overallClamped overall < 6 →
        tierLabel (overallClamped overall) = "Needs Improvement" ∧
        scoreColor overall = "#f97316") ∧
      (overallClamped overall < 4 →
        tierLabel (overallClamped overall) = "Poor" ∧
        scoreColor overall = "#ef4444") := by
  intro overall
  simp only [scoreColor]
  generalize overallClamped overall = q
  unfold tierLabel getScoreColor
  refine ⟨fun h => ?_, fun h1 h2 => ?_, fun h1 h2 => ?_, fun h => ?_⟩ <;>
    split_ifs <;> first | exact ⟨rfl, rfl⟩ | (exfalso; linarith)

/-- Witness for C5 at the spec's scenario input `overall = 9.2`. -/
theorem c5_witness :
    tierLabel (overallClamped (some (JsNum.num (92 / 10)))) = "Excellent" ∧
    scoreColor (some (JsNum.num (92 / 10))) = "#22c55e" :=
  (c5_tiers (some (JsNum.num (92 / 10)))).1 (by
    show (8 : ℚ) ≤ max 0 (min 10 (92 / 10))
    rw [min_eq_right (by norm_num), max_eq_right (by norm_num)]
    norm_num)

/-- Claim C6 (confirmed): every one of the six inputs is clamped to `[0, 10]`
(out-of-range values clamp to the nearest bound; nullish, `NaN` and
non-numeric values clamp to the lower bound 0), and the displayed percentage
is the clamped overall divided by 10 times 100. -/
theorem c6_clamp :
    ∀ (v : Option JsNum) (q : ℚ)
      (acceleration gyroscope events potholes speedConsistency : Option JsNum),
      (0 ≤ clamp v 0 10 ∧ clamp v 0 10 ≤ 10) ∧
      (v = none → clamp v 0 10 = 0) ∧
      (v = some JsNum.nan → clamp v 0 10 = 0) ∧
      (v = some (JsNum.num q) →
        (q < 0 → clamp v 0 10 = 0) ∧
        (10 < q → clamp v 0 10 = 10) ∧
        (0 ≤ q → q ≤ 10 → clamp v 0 10 = q)) ∧
      overallClamped v = clamp v 0 10 ∧
      metricList acceleration gyroscope events potholes speedConsistency =
        [ ("Acceleration", clamp acceleration 0 10),
          ("Gyroscope", clamp gyroscope 0 10),
          ("Events", clamp events 0 10),
          ("Potholes", clamp potholes 0 10),
          ("Speed", clamp speedConsistency 0 10) ] ∧
      percentage v = clamp v 0 10 / 10 * 100 := by
  intro v q a g e p s
  refine ⟨?_, fun hv => ?_, fun hv => ?_, fun hv => ?_, rfl, rfl, rfl⟩
  · cases v with
    | none =>
      show (0 : ℚ) ≤ max 0 (min 10 0) ∧ max 0 (min 10 0) ≤ 10
      constructor
      · exact le_max_left 0 _
      · exact max_le (by norm_num) (min_le_left _ _)
    | some jn =>
      cases jn with
      | nan =>
        show (0 : ℚ) ≤ 0 ∧ (0 : ℚ) ≤ 10
        exact ⟨le_refl 0, by norm_num⟩
      | num n =>
        show (0 : ℚ) ≤ max 0 (min 10 n) ∧ max 0 (min 10 n) ≤ 10
        constructor
        · exact le_max_left 0 _
        · exact max_le (by norm_num) (min_le_left _ _)
  · subst hv
    show max (0 : ℚ) (min 10 0) = 0
    rw [min_eq_right (by norm_num)]
    exact max_self 0
  · subst hv
    rfl
  · subst hv
    refine ⟨fun hq => ?_, fun hq => ?_, fun hq1 hq2 => ?_⟩
    · show max (0 : ℚ) (min 10 q) = 0
      rw [min_eq_right (by linarith), max_eq_left (by linarith)]
    · show max (0 : ℚ) (min 10 q) = 10
      rw [min_eq_left (by linarith), max_eq_right (by norm_num)]
    · show max (0 : ℚ) (min 10 q) = q
      rw [min_eq_right hq2, max_eq_right hq1]

/-- Witness for C6 at concrete inputs: `17` clamps to the upper bound `10`. -/
theorem c6_witness :
    ((0 : ℚ) ≤ clamp (some (JsNum.num 17)) 0 10 ∧
      clamp (some (JsNum.num 17)) 0 10 ≤ 10) ∧
    clamp (some (JsNum.num 17)) 0 10 = 10 ∧
    percentage (some (JsNum.num 17)) = clamp (some (JsNum.num 17)) 0 10 / 10 * 100 := by
  have h := c6_clamp (some (JsNum.num 17)) 17 none none none none none
  exact ⟨h.1, (h.2.2.2.1 rfl).2.1 (by norm_num), h.2.2.2.2.2.2⟩

/-- Claim C7, as stated, is false at a concrete input: changing the sort
direction issues a network fetch — the sort order is in the fetch effect's
dependency array, so the effect re-runs and queries the backend instead of
re-sorting client-side. -/
theorem c7_counterexample :
    (setSortOrderStep [] "R" "F" SortOrder.oldest ⟨[], 0⟩).fetchesIssued ≠
      (⟨[], 0⟩ : PotholeViewState).fetchesIssued := by
  decide

/-- Claim C7 (amended): changing the sort direction triggers a fresh snapshot
fetch over the network (one more query issued), with the new direction applied
server-side; when the server contents are unchanged, the refetched collection
is a permutation of the previously loaded one, so no element is dropped or
duplicated. -/
theorem c7_amended :
    ∀ (db : List Pothole) (r f : String) (o o2 : SortOrder) (v : PotholeViewState),
      v.potholes = fetchPotholes db r f o →
      (setSortOrderStep db r f o2 v).fetchesIssued = v.fetchesIssued + 1 ∧
      List.Perm (setSortOrderStep db r f o2 v).potholes v.potholes := by
  intro db r f o o2 v hv
  refine ⟨rfl, ?_⟩
  rw [hv]
  have perm_fetch : ∀ o3 : SortOrder, List.Perm (fetchPotholes db r f o3)
      (db.filter (fun rr => rr.rider_id == r && rr.file_id == f)) := by
    intro o3
    cases o3 <;> exact List.perm_insertionSort _ _
  exact (perm_fetch o2).trans (perm_fetch o).symm

/-- Witness for the amended C7 at a concrete input. -/
theorem c7_witness :
    (setSortOrderStep [⟨"a", "R", "F", 1⟩] "R" "F" SortOrder.newest
        ⟨fetchPotholes [⟨"a", "R", "F", 1⟩] "R" "F" SortOrder.oldest, 1⟩).fetchesIssued
      = 1 + 1 ∧
    List.Perm
      (setSortOrderStep [⟨"a", "R", "F", 1⟩] "R" "F" SortOrder.newest
        ⟨fetchPotholes [⟨"a", "R", "F", 1⟩] "R" "F" SortOrder.oldest, 1⟩).potholes
      (⟨fetchPotholes [⟨"a", "R", "F", 1⟩] "R" "F" SortOrder.oldest, 1⟩ :
        PotholeViewState).potholes :=
  c7_amended [⟨"a", "R", "F", 1⟩] "R" "F" SortOrder.oldest SortOrder.newest
    ⟨fetchPotholes [⟨"a", "R", "F", 1⟩] "R" "F" SortOrder.oldest, 1⟩ rfl

/-- Claim C8, as stated, is false at a concrete input: a fetch for the
`"newest"` direction is issued, the user switches direction so a fetch for
`"oldest"` (the most recently issued one) is issued and resolves first, and
then the superseded `"newest"` fetch resolves last — its result overwrites the
list, so the displayed collection is not the most recently issued fetch's
result. There is no stale-response guard. -/
theorem c8_counterexample :
    (resolveFetch [⟨"a", "R", "F", 1⟩, ⟨"b", "R", "F", 2⟩] "R" "F" SortOrder.newest
        (resolveFetch [⟨"a", "R", "F", 1⟩, ⟨"b", "R", "F", 2⟩] "R" "F"
          SortOrder.oldest ⟨[], 2⟩)).potholes
      ≠ fetchPotholes [⟨"a", "R", "F", 1⟩, ⟨"b", "R", "F", 2⟩] "R" "F"
          SortOrder.oldest := by
  decide

/-- Claim C8 (amended): every snapshot fetch overwrites the displayed list
with its own captured query result when it resolves, with no staleness check;
the last fetch to resolve wins, so whenever two fetches return different
results and the superseded one resolves last, the displayed list is the
superseded fetch's result, not the most recently issued one's. -/
theorem c8_amended :
    ∀ (db : List Pothole) (r f : String) (o1 o2 : SortOrder) (v : PotholeViewState),
      fetchPotholes db r f o1 ≠ fetchPotholes db r f o2 →
      (resolveFetch db r f o1 (resolveFetch db r f o2 v)).potholes =
        fetchPotholes db r f o1 ∧
      (resolveFetch db r f o1 (resolveFetch db r f o2 v)).potholes ≠
        fetchPotholes db r f o2 := by
  intro db r f o1 o2 v h
  exact ⟨rfl, h⟩

/-- Witness for the amended C8 at a concrete input. -/
theorem c8_witness :
    (resolveFetch [⟨"a", "R", "F", 1⟩, ⟨"b", "R", "F", 2⟩] "R" "F" SortOrder.newest
        (resolveFetch [⟨"a", "R", "F", 1⟩, ⟨"b", "R", "F", 2⟩] "R" "F"
          SortOrder.oldest ⟨[], 0⟩)).potholes =
      fetchPotholes [⟨"a", "R", "F", 1⟩, ⟨"b", "R", "F", 2⟩] "R" "F"
        SortOrder.newest ∧
    (resolveFetch [⟨"a", "R", "F", 1⟩, ⟨"b", "R", "F", 2⟩] "R" "F" SortOrder.newest
        (resolveFetch [⟨"a", "R", "F", 1⟩, ⟨"b", "R", "F", 2⟩] "R" "F"
          SortOrder.oldest ⟨[], 0⟩)).potholes ≠
      fetchPotholes [⟨"a", "R", "F", 1⟩, ⟨"b", "R", "F", 2⟩] "R" "F"
        SortOrder.oldest :=
  c8_amended [⟨"a", "R", "F", 1⟩, ⟨"b", "R", "F", 2⟩] "R" "F"
    SortOrder.newest SortOrder.oldest ⟨[], 0⟩ (by decide)

/-- Claim C9, as stated, is false at a concrete input: while session
resolution is still pending (`fileId` unresolved, `isLoadingFileId = true`)
the telemetry subscription effect already runs — it is gated only on
`riderId` — even though the pothole fetch is correctly gated. -/
theorem c9_counterexample :
    telemetrySubActive (some "R1") none true = true ∧
    potholeFetchActive (some "R1") none true = false := by
  decide

/-- Claim C9 (amended): the pothole and ride-event snapshot fetches and change
subscriptions run only after session resolution completes (they require a
resolved `fileId` and `isLoadingFileId = false`), but the telemetry
(`riderdata`) subscription runs as soon as `riderId` is known, before session
resolution completes. -/
theorem c9_amended :
    ∀ (rid : Option String) (fid : Option String) (loading : Bool),
      (potholeFetchActive rid fid loading = true →
        rid.isSome = true ∧ fid.isSome = true ∧ loading = false) ∧
      (potholeSubActive rid fid loading = true →
        fid.isSome = true ∧ loading = false) ∧
      (rideEventFetchActive rid fid loading = true →
        fid.isSome = true ∧ loading = false) ∧
      (rideEventSubActive rid fid loading = true →
        fid.isSome = true ∧ loading = false) ∧
      (∀ r : String, telemetrySubActive (some r) fid loading = true) := by
  intro rid fid loading
  refine ⟨fun h => ?_, fun h => ?_, fun h => ?_, fun h => ?_, fun r => rfl⟩
  · simp only [potholeFetchActive, Bool.and_eq_true, Bool.not_eq_true'] at h
    exact ⟨h.1.1, h.1.2, h.2⟩
  · simp only [potholeSubActive, Bool.and_eq_true, Bool.not_eq_true'] at h
    exact ⟨h.1.2, h.2⟩
  · simp only [rideEventFetchActive, Bool.and_eq_true, Bool.not_eq_true'] at h
    exact ⟨h.1.2, h.2⟩
  · simp only [rideEventSubActive, Bool.and_eq_true, Bool.not_eq_true'] at h
    exact ⟨h.1.2, h.2⟩

/-- Witness for the amended C9 at a concrete input. -/
theorem c9_witness :
    ((some "F1" : Option String).isSome = true ∧ false = false) ∧
    telemetrySubActive (some "R1") (some "F1") false = true :=
  ⟨(c9_amended (some "R1") (some "F1") false).2.1 (by decide),
   (c9_amended (some "R1") (some "F1") false).2.2.2.2 "R1"⟩

/-- Claim C10 (confirmed): the displayed GPS speed equals `gps_speed_kn`
multiplied by exactly 1.852 when that field is present and truthy and equals 0
otherwise, and latitude/longitude are `null` when their source fields are
absent or empty. Numbers are modelled as exact rationals. -/
theorem c10_gps :
    ∀ (gps_lat gps_lon gps_speed_kn : Jv),
      ((gps_lat = Jv.nullv ∨ gps_lat = Jv.emptyStr) →
        (setGpsDataOf gps_lat gps_lon gps_speed_kn).latitude = none) ∧
      ((gps_lon = Jv.nullv ∨ gps_lon = Jv.emptyStr) →
        (setGpsDataOf gps_lat gps_lon gps_speed_kn).longitude = none) ∧
      (gps_speed_kn.truthy = true →
        (setGpsDataOf gps_lat gps_lon gps_speed_kn).speed =
          numberJv gps_speed_kn * (1852 / 1000)) ∧
      (gps_speed_kn.truthy = false →
        (setGpsDataOf gps_lat gps_lon gps_speed_kn).speed = 0) := by
  intro la lo sp
  refine ⟨fun h => ?_, fun h => ?_, fun h => ?_, fun h => ?_⟩
  · rcases h with h | h <;> subst h <;> rfl
  · rcases h with h | h <;> subst h <;> rfl
  · simp [setGpsDataOf, h]
  · simp [setGpsDataOf, h]

/-- Witness for C10 at concrete inputs: nullish latitude, empty longitude, and
a truthy speed of 10 knots (18.52 km/h). -/
theorem c10_witness :
    (setGpsDataOf Jv.nullv Jv.emptyStr (Jv.numv 10)).latitude = none ∧
    (setGpsDataOf Jv.nullv Jv.emptyStr (Jv.numv 10)).longitude = none ∧
    (setGpsDataOf Jv.nullv Jv.emptyStr (Jv.numv 10)).speed =
      numberJv (Jv.numv 10) * (1852 / 1000) :=
  ⟨(c10_gps Jv.nullv Jv.emptyStr (Jv.numv 10)).1 (Or.inl rfl),
   (c10_gps Jv.nullv Jv.emptyStr (Jv.numv 10)).2.1 (Or.inr rfl),
   (c10_gps Jv.nullv Jv.emptyStr (Jv.numv 10)).2.2.1 (by decide)⟩
